import Mathlib

/-!
Shallow embedding of the shortcut distillation design pipeline
(MEDMATH7/OP2_PROJETO_2) and proofs of its specification claims.

Numbers are modelled exactly: Python floats become `ℚ` where the code is
pure rational arithmetic (specification builder, composition check,
Underwood bisection) and `ℝ` where the code uses transcendental
operations (`**` with fractional exponents, `exp`, `log`, `sqrt`).
Python exceptions become `Except` error values.
-/

namespace OP2

/-- Mirrors the `SeparationSpec` dataclass of `especificacao.py`. -/
structure SeparationSpec where
  F : ℚ
  zF : List ℚ
  F_i : List ℚ
  D : ℚ
  B : ℚ
  D_i : List ℚ
  B_i : List ℚ
  xD : List ℚ
  xB : List ℚ
  R_D : List ℚ
  LK_index : ℕ
  HK_index : ℕ
  deriving DecidableEq, Repr

/-- Mirrors `definir_especificacao_por_recuperacoes` of `especificacao.py`
(lines 41-102): fixed recovery policy, per-component flows, totals,
compositions, fixed key indices 2 (LK) and 3 (HK).  The two
`raise ValueError` branches become `Except.error`. -/
def definir_especificacao_por_recuperacoes (F : ℚ) (z : List ℚ) :
    Except String SeparationSpec :=
  if z.length ≠ 5 then
    .error "Esta funcao espera exatamente 5 componentes (n-C5, n-C6, n-C7, n-C9, n-C10)."
  else
    let R_D : List ℚ := [0.999, 0.995, 0.60, 0.05, 0.001]
    if R_D.length ≠ z.length then
      .error "Tamanho de R_D incompativel com z."
    else
      let F_i := z.map (fun zi => F * zi)
      let D_i := List.zipWith (fun Fi Ri => Fi * Ri) F_i R_D
      let B_i := List.zipWith (fun Fi Di => Fi - Di) F_i D_i
      let D := D_i.sum
      let B := B_i.sum
      let xD := D_i.map (fun Di => Di / D)
      let xB := B_i.map (fun Bi => Bi / B)
      .ok ⟨F, z, F_i, D, B, D_i, B_i, xD, xB, R_D, 2, 3⟩

/-- Mirrors `check_composicao` of `main.py` (lines 37-41): rejects a
composition whose sum is farther than `tol` from 1 (source default
`tol = 1e-6`, passed explicitly here). -/
def check_composicao (z : List ℚ) (tol : ℚ) : Except String ℚ :=
  let soma := z.sum
  if |soma - 1| > tol then
    .error "Soma das fracoes molares z nao e 1.0"
  else
    .ok soma

/-- `main` (main.py lines 56-68) runs `check_composicao` on the feed
composition before the specification builder, the FUG solver, the
efficiency correction and both sizing stages; `rest` stands for that
entire downstream computation. -/
def pipeline_after_check {α : Type} (z : List ℚ) (rest : ℚ → Except String α) :
    Except String α :=
  (check_composicao z 1e-6).bind rest

/-- The fixed worked-example feed composition from `definir_alimentacao`
(main.py line 30). -/
def zExample : List ℚ := [0.05, 0.10, 0.25, 0.30, 0.30]

/-- The exact value of `definir_especificacao_por_recuperacoes 1000 zExample`. -/
def specExample : SeparationSpec :=
  ⟨1000, [1/20, 1/10, 1/4, 3/10, 3/10],
   [50, 100, 250, 300, 300],
   1259/4, 2741/4,
   [999/20, 199/2, 150, 15, 3/10],
   [1/20, 1/2, 100, 285, 2997/10],
   [999/6295, 398/1259, 600/1259, 60/1259, 6/6295],
   [1/13705, 2/2741, 400/2741, 1140/2741, 5994/13705],
   [999/1000, 199/200, 3/5, 1/20, 1/1000],
   2, 3⟩

/-- Mirrors `_underwood_balance` of `fug.py` (lines 27-32):
`sum(alpha * zF / (alpha - theta)) - (1 - q_liq)`. -/
def underwood_balance (theta : ℚ) (alpha zF : List ℚ) (q_liq : ℚ) : ℚ :=
  (List.zipWith (fun a z => a * z / (a - theta)) alpha zF).sum - (1 - q_liq)

/-- The two distinct failure modes of `solve_underwood_theta`:
`noSignChange` is the `ValueError` (fug.py lines 58-62), `noConvergence`
the `RuntimeError` (line 74). -/
inductive UnderwoodError where
  | noSignChange
  | noConvergence
  deriving DecidableEq, Repr

/-- The bisection loop of `solve_underwood_theta` (fug.py lines 64-73),
with the remaining iteration count as fuel.  State is
`(lo, hi, f_lo, f_hi)` exactly as in the source (where `f_hi` is carried
but never read inside the loop). -/
def bisect (alpha zF : List ℚ) (q_liq tol : ℚ) :
    ℕ → ℚ → ℚ → ℚ → ℚ → Except UnderwoodError ℚ
  | 0, _, _, _, _ => .error .noConvergence
  | n + 1, lo, hi, f_lo, f_hi =>
      let mid := 0.5 * (lo + hi)
      let f_mid := underwood_balance mid alpha zF q_liq
      if |f_mid| < tol then .ok mid
      else if f_lo * f_mid < 0 then bisect alpha zF q_liq tol n lo mid f_lo f_mid
      else bisect alpha zF q_liq tol n mid hi f_mid f_hi

/-- Mirrors `solve_underwood_theta` of `fug.py` (lines 35-74): bracket
`[alpha_HK + 1e-6, alpha_LK - 1e-6]`, sign-change check, then bisection
(source defaults `tol = 1e-10`, `max_iter = 100` are passed explicitly
here). -/
def solve_underwood_theta (alpha zF : List ℚ) (q_liq : ℚ) (i_HK i_LK : ℕ)
    (tol : ℚ) (max_iter : ℕ) : Except UnderwoodError ℚ :=
  let alpha_HK := alpha.getD i_HK 0
  let alpha_LK := alpha.getD i_LK 0
  let lo := alpha_HK + 1e-6
  let hi := alpha_LK - 1e-6
  let f_lo := underwood_balance lo alpha zF q_liq
  let f_hi := underwood_balance hi alpha zF q_liq
  if f_lo * f_hi > 0 then .error .noSignChange
  else bisect alpha zF q_liq tol max_iter lo hi f_lo f_hi

/-- Mirrors `gilliland_N` of `fug.py` (lines 98-118), Eduljee form with
the clamp of `X` into `[1e-6, 0.999999]`. -/
noncomputable def gilliland_N (Nmin RR RR_min : ℝ) : ℝ :=
  let X := (RR - RR_min) / (RR + 1)
  let X := max 1e-6 (min 0.999999 X)
  let Y := 0.75 * (1 - X ^ (0.5668 : ℝ))
  (Nmin + Y) / (1 - Y)

/-- Mirrors `oconnell_eta` of `eficiencia.py` (lines 22-29): guard
`alpha_mu <= 0`, else `0.492 * alpha_mu ** (-0.245)`. -/
noncomputable def oconnell_eta (alpha_rel mu_F_cP : ℝ) : Except String ℝ :=
  let alpha_mu := alpha_rel * mu_F_cP
  if alpha_mu ≤ 0 then .error "alpha_rel * mu_F_cP deve ser > 0."
  else .ok (0.492 * alpha_mu ^ (-0.245 : ℝ))

/-- Mirrors `calcular_N_real` of `eficiencia.py` (lines 32-36). -/
noncomputable def calcular_N_real (N_teorico eta_G : ℝ) : Except String ℝ :=
  if eta_G ≤ 0 then .error "eta_G deve ser > 0."
  else .ok (N_teorico / eta_G)

/-- Mirrors the `Componente` dataclass of `componentes.py`; a property
that is missing or NaN in the CSV is modelled as `none`. -/
structure Componente where
  indice : ℕ
  codigo_prof : ℕ
  nome : String
  Tb : Option ℝ
  MM : Option ℝ
  alpha_ref : Option ℝ
  dens_liq : Option ℝ
  dens_vap : Option ℝ
  viscosidade : Option ℝ
  tensao_superficial : Option ℝ

/-- Python's substring test `sub in s`. -/
def contem_substring (s sub : String) : Bool := (s.splitOn sub).length > 1

/-- The per-component molar mass chosen by `massa_molar_media`
(dimensionamento_pratos.py lines 24-42): the registry value when present,
else a literature fallback selected by a lowercase substring of the name,
else the `raise ValueError` branch. -/
noncomputable def mm_do_componente (c : Componente) : Except String ℝ :=
  match c.MM with
  | some v => .ok v
  | none =>
      let nome := c.nome.toLower
      if contem_substring nome "pentano" then .ok 72.15
      else if contem_substring nome "hexano" then .ok 86.18
      else if contem_substring nome "heptano" then .ok 100.21
      else if contem_substring nome "nonano" then .ok 128.26
      else if contem_substring nome "decano" then .ok 142.29
      else .error "Sem MM para componente"

/-- Mirrors `massa_molar_media` of `dimensionamento_pratos.py`
(lines 15-45): dot product of the composition with the per-component
molar masses. -/
noncomputable def massa_molar_media (x : List ℝ) (comps : List Componente) :
    Except String ℝ :=
  (comps.mapM mm_do_componente).map (fun mm =>
    (List.zipWith (fun xi mi => xi * mi) x mm).sum)

/-- Mirrors the `PackedColumnSizing` dataclass of
`dimensionamento_recheios.py`. -/
structure PackedColumnSizing where
  D_m : ℝ
  H_recheio_m : ℝ
  H_total_m : ℝ
  MM_top : ℝ
  rho_V : ℝ
  rho_L : ℝ
  FLV : ℝ
  Y : ℝ
  uV_flood_m_s : ℝ
  uV_op_m_s : ℝ
  A_m2 : ℝ

/-- Mirrors `dimensionar_coluna_recheada_intalox` of
`dimensionamento_recheios.py` (lines 27-135): Leva flooding correlation,
area and diameter, and HETP-based heights.  The operations that raise in
Python become `Except.error` at the corresponding evaluation points, in
evaluation order: float division by a zero denominator raises
`ZeroDivisionError`, `math.log` on a nonpositive argument and
`math.sqrt` on a negative argument raise `ValueError`, and `**` with a
negative base and fractional exponent yields a complex number that
`math.sqrt` then rejects with a `TypeError`. -/
noncomputable def dimensionar_coluna_recheada_intalox
    (spec : SeparationSpec) (RR : ℝ) (comps : List Componente) (N_teorico : ℝ)
    (P_atm T_top_K rho_L mu_L_cP phi : ℝ) : Except String PackedColumnSizing :=
  (massa_molar_media (spec.xD.map (fun q => (q : ℝ))) comps).bind (fun MM_top =>
    let P_kPa := P_atm * 101.325
    let Rbar := (8.314 : ℝ)
    if Rbar * T_top_K = 0 then .error "ZeroDivisionError: float division by zero" else
    let rho_V := P_kPa * MM_top / (Rbar * T_top_K)
    let L0_kmol_h := RR * (spec.D : ℝ)
    let V1_kmol_h := (RR + 1) * (spec.D : ℝ)
    let L_mass_kg_h := L0_kmol_h * MM_top
    let V_mass_kg_h := V1_kmol_h * MM_top
    if V_mass_kg_h = 0 then .error "ZeroDivisionError: float division by zero" else
    if rho_L = 0 then .error "ZeroDivisionError: float division by zero" else
    if rho_V / rho_L < 0 then .error "ValueError: math domain error" else
    let FLV := (L_mass_kg_h / V_mass_kg_h) * Real.sqrt (rho_V / rho_L)
    if FLV ≤ 0 then .error "ValueError: math domain error" else
    let lnF := Real.log FLV
    let Y := Real.exp (-3.7121 - 1.0371 * lnF - 0.1501 * lnF ^ 2 - 0.007544 * lnF ^ 3)
    let rho_H2O := (995.6 : ℝ)
    let F1 := -0.8787 + 2.6776 * (rho_H2O / rho_L) - 0.6313 * (rho_H2O / rho_L) ^ 2
    let F2 := 0.96 * mu_L_cP ^ (0.19 : ℝ)
    let Fp := (92.0 : ℝ)
    if rho_V = 0 then .error "ZeroDivisionError: float division by zero" else
    if mu_L_cP < 0 then .error "TypeError: cannot convert complex to float" else
    if Fp * F1 * F2 = 0 then .error "ZeroDivisionError: float division by zero" else
    if 32.2 * Y * (rho_H2O / rho_V) / (Fp * F1 * F2) < 0 then
      .error "ValueError: math domain error" else
    let uV_flood_ft_s := Real.sqrt (32.2 * Y * (rho_H2O / rho_V) / (Fp * F1 * F2))
    let uV_flood_m_s := uV_flood_ft_s * 0.3048
    let uV_op_m_s := phi * uV_flood_m_s
    let V_mass_kg_s := V_mass_kg_h / 3600
    let G := rho_V * uV_op_m_s
    if G = 0 then .error "ZeroDivisionError: float division by zero" else
    let A_m2 := V_mass_kg_s / G
    if 4 * A_m2 / Real.pi < 0 then .error "ValueError: math domain error" else
    let D_m := Real.sqrt (4 * A_m2 / Real.pi)
    let HETP_ft := (1.5 : ℝ)
    let HETP_m := HETP_ft * 0.3048
    let H_recheio_m := N_teorico * HETP_m
    let H_total_m := H_recheio_m + 2
    .ok ⟨D_m, H_recheio_m, H_total_m, MM_top, rho_V, rho_L, FLV, Y,
         uV_flood_m_s, uV_op_m_s, A_m2⟩)

/-- A one-component registry used to instantiate theorems at a concrete
input. -/
def compExample : Componente :=
  ⟨1, 5, "n-pentano", none, some 72.15, none, none, none, none, none⟩

/-- A minimal `SeparationSpec` value (distillate flow `D = 1`,
distillate composition `[1]`) used to instantiate theorems at a concrete
input on which the sizing succeeds. -/
def specTiny : SeparationSpec :=
  ⟨0, [], [], 1, 0, [], [], [1], [], [], 0, 0⟩

end OP2

namespace OP2

/-! ### Helper lemmas -/

lemma sum_map_div (l : List ℚ) (c : ℚ) :
    (l.map (fun x => x / c)).sum = l.sum / c := by
  induction l with
  | nil => simp
  | cons a t ih => simp [ih, add_div]

lemma zipWith_add_sub (f d : List ℚ) (h : d.length = f.length) :
    List.zipWith (fun Di Bi => Di + Bi) d
      (List.zipWith (fun Fi Di => Fi - Di) f d) = f := by
  induction f generalizing d with
  | nil => cases d with
    | nil => simp
    | cons x t => simp at h
  | cons a t ih =>
      cases d with
      | nil => simp at h
      | cons x s =>
          simp only [List.length_cons, Nat.succ.injEq] at h
          simp [ih s h]

lemma bisect_ok_bounds (alpha zF : List ℚ) (q_liq tol : ℚ) :
    ∀ (n : ℕ) (lo hi f_lo f_hi θ : ℚ), lo ≤ hi →
      bisect alpha zF q_liq tol n lo hi f_lo f_hi = .ok θ →
      |underwood_balance θ alpha zF q_liq| < tol ∧ lo ≤ θ ∧ θ ≤ hi := by
  intro n
  induction n with
  | zero =>
      intro lo hi f_lo f_hi θ hle h
      simp [bisect] at h
  | succ n ih =>
      intro lo hi f_lo f_hi θ hle h
      simp only [bisect] at h
      by_cases h1 : |underwood_balance (0.5 * (lo + hi)) alpha zF q_liq| < tol
      · rw [if_pos h1] at h
        cases h
        exact ⟨h1, by linarith, by linarith⟩
      · rw [if_neg h1] at h
        by_cases h2 : f_lo * underwood_balance (0.5 * (lo + hi)) alpha zF q_liq < 0
        · rw [if_pos h2] at h
          obtain ⟨ha, hb, hc⟩ := ih lo (0.5 * (lo + hi)) f_lo _ θ (by linarith) h
          exact ⟨ha, hb, by linarith⟩
        · rw [if_neg h2] at h
          obtain ⟨ha, hb, hc⟩ := ih (0.5 * (lo + hi)) hi _ f_hi θ (by linarith) h
          exact ⟨ha, by linarith, hc⟩

lemma bisect_result (alpha zF : List ℚ) (q_liq tol : ℚ) :
    ∀ (n : ℕ) (lo hi f_lo f_hi : ℚ),
      bisect alpha zF q_liq tol n lo hi f_lo f_hi = .error .noConvergence ∨
      ∃ θ, bisect alpha zF q_liq tol n lo hi f_lo f_hi = .ok θ ∧
        |underwood_balance θ alpha zF q_liq| < tol := by
  intro n
  induction n with
  | zero =>
      intro lo hi f_lo f_hi
      left; simp [bisect]
  | succ n ih =>
      intro lo hi f_lo f_hi
      simp only [bisect]
      by_cases h1 : |underwood_balance (0.5 * (lo + hi)) alpha zF q_liq| < tol
      · right
        exact ⟨0.5 * (lo + hi), by rw [if_pos h1], h1⟩
      · rw [if_neg h1]
        by_cases h2 : f_lo * underwood_balance (0.5 * (lo + hi)) alpha zF q_liq < 0
        · rw [if_pos h2]; exact ih _ _ _ _
        · rw [if_neg h2]; exact ih _ _ _ _

lemma bisect_first_hit (alpha zF : List ℚ) (q_liq tol : ℚ) (n : ℕ) (lo hi f_lo f_hi : ℚ)
    (h : |underwood_balance (0.5 * (lo + hi)) alpha zF q_liq| < tol) :
    bisect alpha zF q_liq tol (n + 1) lo hi f_lo f_hi = .ok (0.5 * (lo + hi)) := by
  simp only [bisect]
  rw [if_pos h]

lemma except_bind_ok {ε α β : Type} (a : α) (f : α → Except ε β) :
    Except.bind (Except.ok a) f = f a := rfl

lemma except_isOk_exists {ε α : Type} (x : Except ε α) (h : x.isOk = true) :
    ∃ r, x = .ok r := by
  cases x with
  | error e => exact Bool.noConfusion h
  | ok a => exact ⟨a, rfl⟩

lemma clamp_bounds (x : ℝ) :
    1e-6 ≤ max 1e-6 (min 0.999999 x) ∧ max 1e-6 (min 0.999999 x) ≤ 0.999999 :=
  ⟨le_max_left _ _, max_le (by norm_num) (min_le_left _ _)⟩

lemma clamp_mono {x y : ℝ} (h : x ≤ y) :
    max 1e-6 (min 0.999999 x) ≤ max 1e-6 (min 0.999999 y) :=
  max_le_max le_rfl (min_le_min le_rfl h)

lemma gilliland_N_eq (Nmin RR RR_min : ℝ) :
    gilliland_N Nmin RR RR_min =
      (Nmin + 0.75 * (1 - (max 1e-6 (min 0.999999 ((RR - RR_min) / (RR + 1)))) ^ (0.5668 : ℝ))) /
      (1 - 0.75 * (1 - (max 1e-6 (min 0.999999 ((RR - RR_min) / (RR + 1)))) ^ (0.5668 : ℝ))) := rfl

lemma gilliland_Y_bounds {X : ℝ} (h1 : 1e-6 ≤ X) (h2 : X ≤ 0.999999) :
    0 < 0.75 * (1 - X ^ (0.5668 : ℝ)) ∧ 0.75 * (1 - X ^ (0.5668 : ℝ)) < 0.75 := by
  have hx0 : (0 : ℝ) < X := lt_of_lt_of_le (by norm_num) h1
  have ht1 : X ^ (0.5668 : ℝ) < 1 :=
    Real.rpow_lt_one (le_of_lt hx0) (lt_of_le_of_lt h2 (by norm_num)) (by norm_num)
  have ht0 : 0 < X ^ (0.5668 : ℝ) := Real.rpow_pos_of_pos hx0 _
  constructor <;> nlinarith

lemma gilliland_ratio_mono {Nmin Y1 Y2 : ℝ} (hN : 0 ≤ Nmin) (h12 : Y1 ≤ Y2) (h2 : Y2 < 1) :
    (Nmin + Y1) / (1 - Y1) ≤ (Nmin + Y2) / (1 - Y2) := by
  have h1 : Y1 < 1 := lt_of_le_of_lt h12 h2
  rw [div_le_div_iff₀ (by linarith) (by linarith)]
  nlinarith

lemma gilliland_gt (Nmin RR RR_min : ℝ) (hN : -1 < Nmin) :
    Nmin < gilliland_N Nmin RR RR_min := by
  rw [gilliland_N_eq]
  set X := max 1e-6 (min 0.999999 ((RR - RR_min) / (RR + 1))) with hX
  obtain ⟨hb1, hb2⟩ := clamp_bounds ((RR - RR_min) / (RR + 1))
  rw [← hX] at hb1 hb2
  obtain ⟨hY0, hY1⟩ := gilliland_Y_bounds hb1 hb2
  rw [lt_div_iff₀ (by nlinarith)]
  nlinarith

lemma gilliland_anti (Nmin RR_min r1 r2 : ℝ) (hN : 0 ≤ Nmin) (hm : 0 ≤ RR_min)
    (h1 : RR_min ≤ r1) (h12 : r1 ≤ r2) :
    gilliland_N Nmin r2 RR_min ≤ gilliland_N Nmin r1 RR_min := by
  rw [gilliland_N_eq, gilliland_N_eq]
  have hX12 : (r1 - RR_min) / (r1 + 1) ≤ (r2 - RR_min) / (r2 + 1) := by
    have hr1 : (0 : ℝ) < r1 + 1 := by linarith
    have hr2 : (0 : ℝ) < r2 + 1 := by linarith
    rw [div_le_div_iff₀ hr1 hr2]
    nlinarith
  have hc12 := clamp_mono hX12
  obtain ⟨ha1, ha2⟩ := clamp_bounds ((r1 - RR_min) / (r1 + 1))
  obtain ⟨hb1, hb2⟩ := clamp_bounds ((r2 - RR_min) / (r2 + 1))
  have ht : (max 1e-6 (min 0.999999 ((r1 - RR_min) / (r1 + 1)))) ^ (0.5668 : ℝ) ≤
      (max 1e-6 (min 0.999999 ((r2 - RR_min) / (r2 + 1)))) ^ (0.5668 : ℝ) :=
    Real.rpow_le_rpow (by linarith) hc12 (by norm_num)
  obtain ⟨hYa0, hYa1⟩ := gilliland_Y_bounds ha1 ha2
  exact gilliland_ratio_mono hN (by nlinarith) (by nlinarith)

/-! ### Claim theorems -/

/-- C1 (counterexample): on the worked example `F = 1000`,
`z = [0.05, 0.10, 0.25, 0.30, 0.30]` with recovery policy
`[0.999, 0.995, 0.60, 0.05, 0.001]`, the specification builder produces
`D = 314.75` and `B = 685.25`, not `D ≈ 349.75`, `B ≈ 650.25` as
claimed: `D` is 35 kmol/h away from the claimed value. -/
theorem worked_example_flows_counterexample :
    ∃ s, definir_especificacao_por_recuperacoes 1000 zExample = .ok s ∧
      s.D = 1259/4 ∧ s.B = 2741/4 ∧
      ¬ (|s.D - 349.75| ≤ 1 ∧ |s.B - 650.25| ≤ 1) := by
  refine ⟨specExample, ?_, by norm_num [specExample], by norm_num [specExample], ?_⟩
  · norm_num [definir_especificacao_por_recuperacoes, zExample, specExample]
  · norm_num [specExample]

/-- C1 (amended): on the worked example the specification builder
produces total distillate `D = Σ F·zᵢ·R_D,ᵢ = 314.75 kmol/h` and total
bottoms `B = F - D = 685.25 kmol/h`. -/
theorem worked_example_flows_amended :
    ∃ s, definir_especificacao_por_recuperacoes 1000 zExample = .ok s ∧
      s.D = (List.zipWith (fun zi Ri => 1000 * zi * Ri) zExample
        [0.999, 0.995, 0.60, 0.05, 0.001]).sum ∧
      s.D = 314.75 ∧ s.B = 1000 - s.D ∧ s.B = 685.25 := by
  refine ⟨specExample, ?_, ?_, ?_, ?_, ?_⟩
  · norm_num [definir_especificacao_por_recuperacoes, zExample, specExample]
  · norm_num [specExample, zExample]
  · norm_num [specExample]
  · norm_num [specExample]
  · norm_num [specExample]

/-- C2: whenever `solve_underwood_theta` (with the source defaults
`tol = 1e-10`, `max_iter = 100`) returns a value `θ`, the Underwood
balance residual at `θ` is strictly below `1e-10` and `θ` lies strictly
between `α_HK` and `α_LK` (whose inward-shrunken bracket is nonempty). -/
theorem underwood_theta_spec (alpha zF : List ℚ) (q_liq : ℚ) (i_HK i_LK : ℕ) (θ : ℚ)
    (hsep : alpha.getD i_HK 0 + 1e-6 ≤ alpha.getD i_LK 0 - 1e-6)
    (h : solve_underwood_theta alpha zF q_liq i_HK i_LK 1e-10 100 = .ok θ) :
    |underwood_balance θ alpha zF q_liq| < 1e-10 ∧
    alpha.getD i_HK 0 < θ ∧ θ < alpha.getD i_LK 0 := by
  unfold solve_underwood_theta at h
  by_cases hs : underwood_balance (alpha.getD i_HK 0 + 1e-6) alpha zF q_liq *
      underwood_balance (alpha.getD i_LK 0 - 1e-6) alpha zF q_liq > 0
  · rw [if_pos hs] at h
    cases h
  · rw [if_neg hs] at h
    obtain ⟨h1, h2, h3⟩ := bisect_ok_bounds alpha zF q_liq 1e-10 100 _ _ _ _ θ hsep h
    refine ⟨h1, by nlinarith [h2], by nlinarith [h3]⟩

/-- C2 witness: on `alpha = [2, 1]`, `zF = [1/2, 1/2]`, `q_liq = 0`,
`i_HK = 1`, `i_LK = 0`, the solver returns `θ = 3/2` at the first
midpoint and the theorem applies. -/
theorem underwood_theta_spec_witness :
    |underwood_balance (3/2) [2, 1] [1/2, 1/2] 0| < 1e-10 ∧
    ([2, 1] : List ℚ).getD 1 0 < 3/2 ∧ (3/2 : ℚ) < ([2, 1] : List ℚ).getD 0 0 :=
  underwood_theta_spec [2, 1] [1/2, 1/2] 0 1 0 (3/2)
    (by norm_num)
    (by
      have e1 : solve_underwood_theta [2, 1] [1/2, 1/2] 0 1 0 1e-10 100 =
          if underwood_balance (1 + 1e-6) [2, 1] [1/2, 1/2] 0 *
              underwood_balance (2 - 1e-6) [2, 1] [1/2, 1/2] 0 > 0
            then .error .noSignChange
            else bisect [2, 1] [1/2, 1/2] 0 1e-10 100 (1 + 1e-6) (2 - 1e-6)
              (underwood_balance (1 + 1e-6) [2, 1] [1/2, 1/2] 0)
              (underwood_balance (2 - 1e-6) [2, 1] [1/2, 1/2] 0) := rfl
      rw [e1, if_neg (by norm_num [underwood_balance]),
        show (100 : ℕ) = 99 + 1 from rfl,
        bisect_first_hit _ _ _ _ 99 _ _ _ _ (by norm_num [underwood_balance])]
      norm_num)

/-- C4: `solve_underwood_theta` fails in exactly two distinct ways: it
returns the `ValueError` value `noSignChange` when the balance has the
same sign at both bracket ends, and otherwise it either returns the
`RuntimeError` value `noConvergence` (iteration cap exhausted) or a root
whose residual is below the tolerance. -/
theorem underwood_failure_modes (alpha zF : List ℚ) (q_liq : ℚ) (i_HK i_LK : ℕ) :
    (0 < underwood_balance (alpha.getD i_HK 0 + 1e-6) alpha zF q_liq *
        underwood_balance (alpha.getD i_LK 0 - 1e-6) alpha zF q_liq →
      solve_underwood_theta alpha zF q_liq i_HK i_LK 1e-10 100 = .error .noSignChange) ∧
    (¬ 0 < underwood_balance (alpha.getD i_HK 0 + 1e-6) alpha zF q_liq *
        underwood_balance (alpha.getD i_LK 0 - 1e-6) alpha zF q_liq →
      solve_underwood_theta alpha zF q_liq i_HK i_LK 1e-10 100 = .error .noConvergence ∨
      ∃ θ, solve_underwood_theta alpha zF q_liq i_HK i_LK 1e-10 100 = .ok θ ∧
        |underwood_balance θ alpha zF q_liq| < 1e-10) := by
  constructor
  · intro hs
    unfold solve_underwood_theta
    rw [if_pos hs]
  · intro hs
    unfold solve_underwood_theta
    rw [if_neg hs]
    exact bisect_result alpha zF q_liq 1e-10 100 _ _ _ _

/-- C4 witness: on `alpha = [2, 1]`, `zF = [1/2, 1/2]`, `q_liq = 0` the
bracket has a sign change, so the solver does not raise `noSignChange`
and either exhausts the cap or returns a root. -/
theorem underwood_failure_modes_witness :
    solve_underwood_theta [2, 1] [1/2, 1/2] 0 1 0 1e-10 100 = .error .noConvergence ∨
    ∃ θ, solve_underwood_theta [2, 1] [1/2, 1/2] 0 1 0 1e-10 100 = .ok θ ∧
      |underwood_balance θ [2, 1] [1/2, 1/2] 0| < 1e-10 :=
  (underwood_failure_modes [2, 1] [1/2, 1/2] 0 1 0).2
    (by norm_num [underwood_balance])

/-- C3 (counterexample): at `N_min = 1`, `RR = RR_min = 1` we have
`X = (RR - RR_min)/(RR + 1) = 0`, yet `gilliland_N` does not return
`N_min`: the clamp moves `X` to `1e-6`, so `Y > 0` and `N > N_min`. -/
theorem gilliland_at_Xzero_counterexample :
    ((1 : ℝ) - 1) / (1 + 1) = 0 ∧ gilliland_N 1 1 1 ≠ 1 :=
  ⟨by norm_num, ne_of_gt (gilliland_gt 1 1 1 (by norm_num))⟩

/-- C3 (amended): for fixed `N_min ≥ 0` the Gilliland stage count is
monotonically non-decreasing as `X` decreases (i.e. non-increasing in
`RR` on `RR ≥ RR_min ≥ 0`), and `N` is always strictly greater than
`N_min`: `N = N_min` would need `Y = 0`, i.e. `X = 1`, which the clamp
to `[1e-6, 0.999999]` excludes (in particular `N ≠ N_min` at
`RR = RR_min`). -/
theorem gilliland_monotone_amended (Nmin RR_min r1 r2 : ℝ) (hN : 0 ≤ Nmin)
    (hm : 0 ≤ RR_min) (h1 : RR_min ≤ r1) (h12 : r1 ≤ r2) :
    gilliland_N Nmin r2 RR_min ≤ gilliland_N Nmin r1 RR_min ∧
    Nmin < gilliland_N Nmin r1 RR_min :=
  ⟨gilliland_anti Nmin RR_min r1 r2 hN hm h1 h12,
   gilliland_gt Nmin r1 RR_min (by linarith)⟩

/-- C3 witness: the amended theorem at `N_min = 0`, `RR_min = 0`,
`r1 = 0`, `r2 = 1`. -/
theorem gilliland_monotone_amended_witness :
    gilliland_N 0 1 0 ≤ gilliland_N 0 0 0 ∧ (0 : ℝ) < gilliland_N 0 0 0 :=
  gilliland_monotone_amended 0 0 0 1 le_rfl le_rfl le_rfl zero_le_one

/-- C5: whenever the packed-column sizing returns a result (rather than
raising at one of its error points) for `N_teo ≥ 0`, the packed height
of that result is `H_recheio = N_teo × HETP` with `HETP = 1.5 × 0.3048 m`
(the 1-inch Intalox rule `HETP[ft] = 1.5 × Dp[in]` converted to metric),
and the total height adds a fixed 2 m clearance. -/
theorem packed_height_spec (spec : SeparationSpec) (RR : ℝ) (comps : List Componente)
    (N_teorico P_atm T_top_K rho_L mu_L_cP phi : ℝ) (r : PackedColumnSizing)
    (h : dimensionar_coluna_recheada_intalox spec RR comps N_teorico
        P_atm T_top_K rho_L mu_L_cP phi = .ok r)
    (hN : 0 ≤ N_teorico) :
    r.H_recheio_m = N_teorico * (1.5 * 0.3048) ∧
    r.H_total_m = N_teorico * (1.5 * 0.3048) + 2 := by
  unfold dimensionar_coluna_recheada_intalox at h
  cases hmm : massa_molar_media (spec.xD.map (fun q => (q : ℝ))) comps with
  | error e =>
      rw [hmm] at h
      exact absurd h (by simp [Except.bind])
  | ok MM =>
      rw [hmm, except_bind_ok] at h
      lift_lets at h
      extract_lets P_kPa Rbar rho_V L0_kmol_h V1_kmol_h L_mass_kg_h V_mass_kg_h FLV
        lnF Y rho_H2O F1 F2 Fp uV_flood_ft_s uV_flood_m_s uV_op_m_s V_mass_kg_s G A_m2
        _ _ _ _ _ at h
      by_cases h1 : Rbar * T_top_K = 0
      · rw [if_pos h1] at h; cases h
      rw [if_neg h1] at h
      by_cases h2 : V_mass_kg_h = 0
      · rw [if_pos h2] at h; cases h
      rw [if_neg h2] at h
      by_cases h3 : rho_L = 0
      · rw [if_pos h3] at h; cases h
      rw [if_neg h3] at h
      by_cases h4 : rho_V / rho_L < 0
      · rw [if_pos h4] at h; cases h
      rw [if_neg h4] at h
      by_cases h5 : FLV ≤ 0
      · rw [if_pos h5] at h; cases h
      rw [if_neg h5] at h
      by_cases h6 : rho_V = 0
      · rw [if_pos h6] at h; cases h
      rw [if_neg h6] at h
      by_cases h7 : mu_L_cP < 0
      · rw [if_pos h7] at h; cases h
      rw [if_neg h7] at h
      by_cases h8 : Fp * F1 * F2 = 0
      · rw [if_pos h8] at h; cases h
      rw [if_neg h8] at h
      by_cases h9 : 32.2 * Y * (rho_H2O / rho_V) / (Fp * F1 * F2) < 0
      · rw [if_pos h9] at h; cases h
      rw [if_neg h9] at h
      by_cases h10 : G = 0
      · rw [if_pos h10] at h; cases h
      rw [if_neg h10] at h
      by_cases h11 : 4 * A_m2 / Real.pi < 0
      · rw [if_pos h11] at h; cases h
      rw [if_neg h11] at h
      injection h with h
      subst h
      exact ⟨rfl, rfl⟩

/-- C5 witness: the theorem at the one-component registry and a tiny
spec with `D = 1`, `xD = [1]`, `RR = 2`, `N_teo = 5`, where every error
guard is passed and the sizing genuinely returns. -/
theorem packed_height_spec_witness :
    ∃ r, dimensionar_coluna_recheada_intalox specTiny 2 [compExample] 5
        2 370 630 1 0.7 = .ok r ∧
      r.H_recheio_m = 5 * (1.5 * 0.3048) ∧
      r.H_total_m = 5 * (1.5 * 0.3048) + 2 := by
  obtain ⟨r, hr⟩ : ∃ r, dimensionar_coluna_recheada_intalox specTiny 2 [compExample] 5
      2 370 630 1 0.7 = .ok r := by
    apply except_isOk_exists
    unfold dimensionar_coluna_recheada_intalox
    rw [show massa_molar_media (specTiny.xD.map (fun q => (q : ℝ))) [compExample] =
      .ok (((1 : ℚ) : ℝ) * 72.15 + 0) from rfl, except_bind_ok]
    lift_lets
    extract_lets P_kPa Rbar rho_V L0_kmol_h V1_kmol_h L_mass_kg_h V_mass_kg_h FLV
      lnF Y rho_H2O F1 F2 Fp uV_flood_ft_s uV_flood_m_s uV_op_m_s V_mass_kg_s G A_m2
      _ _ _ _ _
    have h_rhoV : 0 < rho_V := by unfold rho_V P_kPa Rbar; norm_num
    have h_Lmass : 0 < L_mass_kg_h := by
      unfold L_mass_kg_h L0_kmol_h; norm_num [specTiny]
    have h_Vmass : 0 < V_mass_kg_h := by
      unfold V_mass_kg_h V1_kmol_h; norm_num [specTiny]
    have h_FLV : 0 < FLV := by
      unfold FLV
      exact mul_pos (div_pos h_Lmass h_Vmass)
        (Real.sqrt_pos.mpr (div_pos h_rhoV (by norm_num)))
    have h_Y : 0 < Y := by unfold Y; exact Real.exp_pos _
    have h_F1 : 0 < F1 := by unfold F1; norm_num
    have h_F2 : 0 < F2 := by unfold F2; rw [Real.one_rpow]; norm_num
    have h_rhoH2O : (0 : ℝ) < rho_H2O := by unfold rho_H2O; norm_num
    have h_den : 0 < Fp * F1 * F2 := by
      unfold Fp
      exact mul_pos (mul_pos (by norm_num) h_F1) h_F2
    have h_arg : 0 < 32.2 * Y * (rho_H2O / rho_V) / (Fp * F1 * F2) :=
      div_pos (mul_pos (mul_pos (by norm_num) h_Y) (div_pos h_rhoH2O h_rhoV)) h_den
    have h_flood : 0 < uV_flood_m_s := by
      unfold uV_flood_m_s uV_flood_ft_s
      exact mul_pos (Real.sqrt_pos.mpr h_arg) (by norm_num)
    have h_G : 0 < G := by
      unfold G uV_op_m_s
      exact mul_pos h_rhoV (mul_pos (by norm_num) h_flood)
    have h_A : 0 < A_m2 := by
      unfold A_m2 V_mass_kg_s
      exact div_pos (div_pos h_Vmass (by norm_num)) h_G
    rw [if_neg (show ¬ Rbar * 370 = 0 by unfold Rbar; norm_num),
      if_neg (show ¬ V_mass_kg_h = 0 from ne_of_gt h_Vmass),
      if_neg (show ¬ (630 : ℝ) = 0 by norm_num),
      if_neg (show ¬ rho_V / 630 < 0 from
        not_lt.mpr (le_of_lt (div_pos h_rhoV (by norm_num)))),
      if_neg (show ¬ FLV ≤ 0 from not_le.mpr h_FLV),
      if_neg (show ¬ rho_V = 0 from ne_of_gt h_rhoV),
      if_neg (show ¬ (1 : ℝ) < 0 by norm_num),
      if_neg (show ¬ Fp * F1 * F2 = 0 from ne_of_gt h_den),
      if_neg (show ¬ 32.2 * Y * (rho_H2O / rho_V) / (Fp * F1 * F2) < 0 from
        not_lt.mpr (le_of_lt h_arg)),
      if_neg (show ¬ G = 0 from ne_of_gt h_G),
      if_neg (show ¬ 4 * A_m2 / Real.pi < 0 from
        not_lt.mpr (le_of_lt (div_pos (mul_pos (by norm_num) h_A) Real.pi_pos)))]
    rfl
  exact ⟨r, hr,
    (packed_height_spec specTiny 2 [compExample] 5 2 370 630 1 0.7 r hr (by norm_num)).1,
    (packed_height_spec specTiny 2 [compExample] 5 2 370 630 1 0.7 r hr (by norm_num)).2⟩

/-- C6: `oconnell_eta` raises exactly when `α_rel · μ_F ≤ 0` and
otherwise returns `0.492 × (α_rel · μ_F)^(-0.245)`, which is strictly
positive; `calcular_N_real` returns `N/η_G` for `η_G > 0` and raises for
`η_G ≤ 0`. -/
theorem oconnell_eta_spec (a mu N eta : ℝ) :
    (a * mu ≤ 0 → oconnell_eta a mu = .error "alpha_rel * mu_F_cP deve ser > 0.") ∧
    (0 < a * mu →
      oconnell_eta a mu = .ok (0.492 * (a * mu) ^ (-0.245 : ℝ)) ∧
      0 < 0.492 * (a * mu) ^ (-0.245 : ℝ)) ∧
    (0 < eta → calcular_N_real N eta = .ok (N / eta)) ∧
    (eta ≤ 0 → calcular_N_real N eta = .error "eta_G deve ser > 0.") := by
  refine ⟨fun h => ?_, fun h => ⟨?_, ?_⟩, fun h => ?_, fun h => ?_⟩
  · unfold oconnell_eta; rw [if_pos h]
  · unfold oconnell_eta; rw [if_neg (not_le.mpr h)]
  · exact mul_pos (by norm_num) (Real.rpow_pos_of_pos h _)
  · unfold calcular_N_real; rw [if_neg (not_le.mpr h)]
  · unfold calcular_N_real; rw [if_pos h]

/-- C6 witness: the theorem at `α_rel = 1`, `μ_F = 1`, `N = 1`,
`η_G = 1`. -/
theorem oconnell_eta_spec_witness :
    oconnell_eta 1 1 = .ok (0.492 * ((1 : ℝ) * 1) ^ (-0.245 : ℝ)) ∧
    (0 : ℝ) < 0.492 * ((1 : ℝ) * 1) ^ (-0.245 : ℝ) ∧
    calcular_N_real 1 1 = .ok (1 / 1) :=
  ⟨((oconnell_eta_spec 1 1 1 1).2.1 (by norm_num)).1,
   ((oconnell_eta_spec 1 1 1 1).2.1 (by norm_num)).2,
   (oconnell_eta_spec 1 1 1 1).2.2.1 (by norm_num)⟩

/-- C7: for every 5-element composition summing to 1 and positive feed
flow, the specification builder succeeds and, componentwise, the
distillate and bottoms flows sum exactly to the component feed flow
`F_i = F·z_i`. -/
theorem component_material_balance (F : ℚ) (z : List ℚ)
    (h5 : z.length = 5) (hsum : z.sum = 1) (hF : 0 < F) :
    ∃ s, definir_especificacao_por_recuperacoes F z = .ok s ∧
      List.zipWith (fun Di Bi => Di + Bi) s.D_i s.B_i = s.F_i ∧
      s.F_i = z.map (fun zi => F * zi) := by
  unfold definir_especificacao_por_recuperacoes
  rw [if_neg (by simp [h5]), if_neg (by simp [h5])]
  refine ⟨_, rfl, ?_, rfl⟩
  apply zipWith_add_sub
  simp [h5]

/-- C7 witness: the theorem at the worked example `F = 1000`,
`z = zExample`. -/
theorem component_material_balance_witness :
    ∃ s, definir_especificacao_por_recuperacoes 1000 zExample = .ok s ∧
      List.zipWith (fun Di Bi => Di + Bi) s.D_i s.B_i = s.F_i ∧
      s.F_i = zExample.map (fun zi => 1000 * zi) :=
  component_material_balance 1000 zExample (by simp [zExample])
    (by norm_num [zExample]) (by norm_num)

/-- C8: for every specification the builder returns with positive total
distillate and bottoms flows, the distillate and bottoms composition
vectors each sum to 1 within `1e-9` (in fact exactly). -/
theorem compositions_sum_to_one (F : ℚ) (z : List ℚ) (s : SeparationSpec)
    (h : definir_especificacao_por_recuperacoes F z = .ok s)
    (hD : 0 < s.D) (hB : 0 < s.B) :
    |s.xD.sum - 1| ≤ 1e-9 ∧ |s.xB.sum - 1| ≤ 1e-9 := by
  by_cases h5 : z.length = 5
  · unfold definir_especificacao_por_recuperacoes at h
    rw [if_neg (by simp [h5]), if_neg (by simp [h5])] at h
    simp only [] at h
    cases h
    constructor
    all_goals
      simp only [sum_map_div]
      rw [div_self (by positivity)]
      norm_num
  · unfold definir_especificacao_por_recuperacoes at h
    rw [if_pos (by simp [h5])] at h
    cases h

/-- C8 witness: the theorem at the worked example, whose compositions
are `specExample.xD` and `specExample.xB`. -/
theorem compositions_sum_to_one_witness :
    |specExample.xD.sum - 1| ≤ 1e-9 ∧ |specExample.xB.sum - 1| ≤ 1e-9 :=
  compositions_sum_to_one 1000 zExample specExample
    (by norm_num [definir_especificacao_por_recuperacoes, zExample, specExample])
    (by norm_num [specExample]) (by norm_num [specExample])

/-- C9: a composition whose sum differs from 1 by more than `1e-6` is
rejected by `check_composicao`, and the pipeline therefore fails with
that error before any downstream computation runs, whatever the
downstream computation is. -/
theorem bad_composition_rejected (z : List ℚ) (h : |z.sum - 1| > 1e-6) :
    check_composicao z 1e-6 = .error "Soma das fracoes molares z nao e 1.0" ∧
    ∀ (α : Type) (rest : ℚ → Except String α),
      pipeline_after_check z rest = .error "Soma das fracoes molares z nao e 1.0" := by
  have hc : check_composicao z 1e-6 = .error "Soma das fracoes molares z nao e 1.0" := by
    unfold check_composicao
    rw [if_pos h]
  refine ⟨hc, fun α rest => ?_⟩
  unfold pipeline_after_check
  rw [hc]
  rfl

/-- C9 witness: the boundary composition `[0.05, 0.10, 0.25, 0.30, 0.3001]`
(sum `1.0001`) is rejected before any downstream computation. -/
theorem bad_composition_rejected_witness :
    check_composicao [0.05, 0.10, 0.25, 0.30, 0.3001] 1e-6 =
      .error "Soma das fracoes molares z nao e 1.0" ∧
    ∀ (α : Type) (rest : ℚ → Except String α),
      pipeline_after_check [0.05, 0.10, 0.25, 0.30, 0.3001] rest =
        .error "Soma das fracoes molares z nao e 1.0" :=
  bad_composition_rejected [0.05, 0.10, 0.25, 0.30, 0.3001] (by
    have hs : ([0.05, 0.10, 0.25, 0.30, 0.3001] : List ℚ).sum - 1 = 1/10000 := by
      norm_num
    rw [hs, abs_of_pos (by norm_num)]
    norm_num)

/-- C10: `gilliland_N` is total: for every `N_min ≥ 0`, `RR ≥ 0`,
`RR_min ≥ 0` (including `RR < RR_min`) the clamp forces
`Y ∈ (0, 0.75)`, so `1 - Y ≠ 0`, the returned value is
`(N_min + Y)/(1 - Y)` and it is strictly greater than `N_min`. -/
theorem gilliland_total (Nmin RR RR_min : ℝ) (hN : 0 ≤ Nmin) (hR : 0 ≤ RR)
    (hm : 0 ≤ RR_min) :
    ∃ Y : ℝ, 0 < Y ∧ Y < 0.75 ∧ (1 : ℝ) - Y ≠ 0 ∧
      gilliland_N Nmin RR RR_min = (Nmin + Y) / (1 - Y) ∧
      Nmin < gilliland_N Nmin RR RR_min := by
  obtain ⟨hb1, hb2⟩ := clamp_bounds ((RR - RR_min) / (RR + 1))
  obtain ⟨hY0, hY1⟩ := gilliland_Y_bounds hb1 hb2
  exact ⟨_, hY0, hY1, by nlinarith, gilliland_N_eq Nmin RR RR_min,
    gilliland_gt Nmin RR RR_min (by linarith)⟩

/-- C10 witness: the theorem at `N_min = RR = RR_min = 0`. -/
theorem gilliland_total_witness :
    ∃ Y : ℝ, 0 < Y ∧ Y < 0.75 ∧ (1 : ℝ) - Y ≠ 0 ∧
      gilliland_N 0 0 0 = (0 + Y) / (1 - Y) ∧
      (0 : ℝ) < gilliland_N 0 0 0 :=
  gilliland_total 0 0 0 le_rfl le_rfl le_rfl

end OP2
